import Mathlib

/-!
Shallow embedding of the voting dashboard in src/app.py.

The program keeps its state in a SQLite database with two tables:

* ideas(id AUTOINCREMENT, category CHECK in ('food','festival'), content,
  votes DEFAULT 0, created_at DEFAULT CURRENT_TIMESTAMP)
* votes(id AUTOINCREMENT, idea_id, user_id, created_at,
  UNIQUE(idea_id, user_id), FOREIGN KEY idea_id REFERENCES ideas(id) ON DELETE CASCADE)

and exposes five database functions: add_idea, has_voted, toggle_vote,
delete_idea, fetch_ideas.  We model the database as explicit lists of rows
plus the two AUTOINCREMENT counters, SQL timestamps as natural numbers
(CURRENT_TIMESTAMP becomes an explicit `now` argument), and each Python
function as a Lean function on that state.

One SQLite semantic detail is load-bearing throughout: the connection set up
in get_conn (src/app.py lines 36-70) executes PRAGMA journal_mode and
PRAGMA synchronous but never PRAGMA foreign_keys=ON, and SQLite leaves
foreign-key enforcement OFF by default.  Hence the declared
ON DELETE CASCADE on votes.idea_id never fires and dangling idea_id values
are accepted on insert; the embedding reflects this.  The UNIQUE and CHECK
constraints, by contrast, are always enforced by SQLite and are modelled.
-/

namespace MTBoard

/-- Row of the ideas table: id, category, content, the legacy stored counter
column `votes` (schema comment: kept for backwards compatibility, unused in
aggregation), and creation timestamp. -/
structure Idea where
  id : Nat
  category : String
  content : String
  votes : Nat
  created_at : Nat
deriving Repr, DecidableEq

/-- Row of the votes table: id, referenced idea id, voting session id, and
creation timestamp. -/
structure Vote where
  id : Nat
  idea_id : Nat
  user_id : String
  created_at : Nat
deriving Repr, DecidableEq

/-- Database state: the two tables plus their AUTOINCREMENT counters (SQLite
AUTOINCREMENT ids are monotonically assigned and never reused, which the
counters model). -/
structure DB where
  ideas : List Idea
  votes : List Vote
  next_idea_id : Nat
  next_vote_id : Nat
deriving Repr, DecidableEq

/-- State of the freshly created database: both tables empty, AUTOINCREMENT
counters at 1. -/
def initDB : DB := { ideas := [], votes := [], next_idea_id := 1, next_vote_id := 1 }

/-- Characters removed by Python str.strip() with no argument: ASCII
whitespace space, tab, newline, carriage return, vertical tab, form feed. -/
def isPySpace (c : Char) : Bool :=
  c = ' ' || c = '\t' || c = '\n' || c = '\r' || c = '\x0b' || c = '\x0c'

/-- Python str.strip(): drop leading and trailing whitespace. -/
def pyStrip (s : String) : String :=
  ⟨((s.data.dropWhile isPySpace).reverse.dropWhile isPySpace).reverse⟩

/-- WHERE clause `idea_id = ? AND user_id = ?` used by has_voted, toggle_vote
and the UNIQUE(idea_id, user_id) constraint. -/
def voteFor (idea_id : Nat) (user_id : String) (v : Vote) : Bool :=
  v.idea_id == idea_id && v.user_id == user_id

/-- add_idea (src/app.py lines 82-88): strip the content; if empty return
False; otherwise INSERT INTO ideas(category, content, votes) VALUES (?, ?, 0)
and return True.  The INSERT is subject to the schema constraint
CHECK(category IN ('food','festival')); a violating category raises an
uncaught sqlite3.IntegrityError, modelled as `none`.  The fresh row gets the
next AUTOINCREMENT id and the current timestamp. -/
def add_idea (db : DB) (now : Nat) (category content : String) : Option (DB × Bool) :=
  let content := pyStrip content
  if content = "" then some (db, false)
  else if category = "food" || category = "festival" then
    some ({ db with
              ideas := db.ideas ++
                [{ id := db.next_idea_id, category := category, content := content,
                   votes := 0, created_at := now }],
              next_idea_id := db.next_idea_id + 1 }, true)
  else none

/-- has_voted (src/app.py lines 90-93): SELECT 1 FROM votes WHERE
idea_id = ? AND user_id = ? LIMIT 1; returns whether a row was found. -/
def has_voted (db : DB) (idea_id : Nat) (user_id : String) : Bool :=
  (db.votes.find? (voteFor idea_id user_id)).isSome

/-- The INSERT INTO votes(idea_id, user_id) statement of toggle_vote
(src/app.py lines 105-109) together with its constraint handling: a
collision with UNIQUE(idea_id, user_id) raises sqlite3.IntegrityError, which
the surrounding try/except swallows, leaving the database unchanged.  The
foreign-key constraint on idea_id is not enforced (PRAGMA foreign_keys is
never enabled), so the insert succeeds even for an idea_id with no ideas
row. -/
def vote_insert_absorbed (db : DB) (now : Nat) (idea_id : Nat) (user_id : String) : DB :=
  if db.votes.any (voteFor idea_id user_id) then db
  else { db with
           votes := db.votes ++
             [{ id := db.next_vote_id, idea_id := idea_id, user_id := user_id,
                created_at := now }],
           next_vote_id := db.next_vote_id + 1 }

/-- toggle_vote (src/app.py lines 95-109): SELECT the vote row for
(idea_id, user_id); if found, DELETE FROM votes WHERE id = that row's id;
otherwise run the absorbing insert.  The Python function has no return
statement, so every path returns None, modelled as the `none` second
component. -/
def toggle_vote (db : DB) (now : Nat) (idea_id : Nat) (user_id : String) : DB × Option Bool :=
  match db.votes.find? (voteFor idea_id user_id) with
  | some row => ({ db with votes := db.votes.filter (fun v => v.id != row.id) }, none)
  | none => (vote_insert_absorbed db now idea_id user_id, none)

/-- delete_idea (src/app.py lines 111-114): DELETE FROM ideas WHERE id = ?.
The source comment expects the foreign key's ON DELETE CASCADE to delete the
matching votes rows as well, but PRAGMA foreign_keys is never enabled and
SQLite defaults it to OFF, so the votes table is in fact left untouched. -/
def delete_idea (db : DB) (idea_id : Nat) : DB :=
  { db with ideas := db.ideas.filter (fun i => i.id != idea_id) }

/-- Aggregation subquery of fetch_ideas: SELECT idea_id, COUNT(*) FROM votes
GROUP BY idea_id, read off at one idea id (COALESCE(cnt, 0) for ideas with
no votes row). -/
def live_count (db : DB) (idea_id : Nat) : Nat :=
  db.votes.countP (fun v => v.idea_id == idea_id)

/-- Result row of fetch_ideas: id, content, aggregated vote count, creation
timestamp, and whether the requesting session holds a vote. -/
structure IdeaRow where
  id : Nat
  content : String
  votes : Nat
  created_at : Nat
  i_voted : Bool
deriving Repr, DecidableEq

/-- Comparator for ORDER BY votes DESC, datetime(created_at) ASC, id ASC of
fetch_ideas.  The bare identifier `votes` in the ORDER BY resolves to the
output-column alias COALESCE(v.cnt, 0) AS votes (SQLite resolves ORDER BY
identifiers against the result columns first), i.e. to the live aggregated
count, not to the stored column ideas.votes. -/
def rankLE (a b : IdeaRow) : Bool :=
  if a.votes = b.votes then
    if a.created_at = b.created_at then decide (a.id ≤ b.id)
    else decide (a.created_at < b.created_at)
  else decide (b.votes < a.votes)

/-- Propositional form of the fetch_ideas ordering. -/
def rankRel (a b : IdeaRow) : Prop := rankLE a b = true

instance : DecidableRel rankRel :=
  fun a b => inferInstanceAs (Decidable (rankLE a b = true))

/-- fetch_ideas (src/app.py lines 116-146): filter the ideas of the category
(WHERE i.category = ?), annotate each with its live vote count (LEFT JOIN of
the GROUP BY aggregation, COALESCE to 0) and with the presence of a vote row
of the requesting session (LEFT JOIN restricted to user_id = ?; at most one
matching row exists per idea because of UNIQUE(idea_id, user_id), so the
join duplicates nothing), then sort by the three-level ORDER BY key. -/
def fetch_ideas (db : DB) (category user_id : String) : List IdeaRow :=
  List.insertionSort rankRel
    ((db.ideas.filter (fun i => i.category == category)).map
      (fun i =>
        { id := i.id, content := i.content, votes := live_count db i.id,
          created_at := i.created_at,
          i_voted := (db.votes.find? (voteFor i.id user_id)).isSome }))

/-- Iterated toggle calls on one (idea, session) pair, one per timestamp in
the list. -/
def toggle_iter (idea_id : Nat) (user_id : String) : DB → List Nat → DB
  | db, [] => db
  | db, t :: ts => toggle_iter idea_id user_id (toggle_vote db t idea_id user_id).1 ts

/-- One mutating call of the public interface: add_idea (when it does not
raise), toggle_vote, or delete_idea.  fetch_ideas and has_voted are
read-only and do not change the state. -/
inductive Step : DB → DB → Prop where
  | add : ∀ (db : DB) (now : Nat) (category content : String) (db2 : DB) (ok : Bool),
      add_idea db now category content = some (db2, ok) → Step db db2
  | toggle : ∀ (db : DB) (now idea_id : Nat) (user_id : String),
      Step db (toggle_vote db now idea_id user_id).1
  | del : ∀ (db : DB) (idea_id : Nat), Step db (delete_idea db idea_id)

/-- States reachable from the fresh database through the public mutating
operations. -/
inductive Reachable : DB → Prop where
  | init : Reachable initDB
  | step : ∀ {db db2 : DB}, Reachable db → Step db db2 → Reachable db2

/-- Invariant backed by UNIQUE(idea_id, user_id): no two vote rows carry the
same (idea, session) pair. -/
def VotesUnique (db : DB) : Prop :=
  ∀ v ∈ db.votes, ∀ w ∈ db.votes, v.idea_id = w.idea_id → v.user_id = w.user_id → v = w

/-- Replace the legacy stored counter column ideas.votes by an arbitrary
function of its value, leaving everything else in place. -/
def scale_stored (f : Nat → Nat) (db : DB) : DB :=
  { db with ideas := db.ideas.map (fun i => { i with votes := f i.votes }) }

/-- Concrete store with the spec's ranking example: suggestions A and B with
3 votes each (A created earlier), C with 5 votes. -/
def exDB3 : DB :=
  { ideas :=
      [ { id := 1, category := "food", content := "A", votes := 0, created_at := 10 },
        { id := 2, category := "food", content := "B", votes := 0, created_at := 20 },
        { id := 3, category := "food", content := "C", votes := 0, created_at := 30 } ],
    votes :=
      [ { id := 1, idea_id := 1, user_id := "u1", created_at := 11 },
        { id := 2, idea_id := 1, user_id := "u2", created_at := 11 },
        { id := 3, idea_id := 1, user_id := "u3", created_at := 11 },
        { id := 4, idea_id := 2, user_id := "u1", created_at := 21 },
        { id := 5, idea_id := 2, user_id := "u2", created_at := 21 },
        { id := 6, idea_id := 2, user_id := "u4", created_at := 21 },
        { id := 7, idea_id := 3, user_id := "u1", created_at := 31 },
        { id := 8, idea_id := 3, user_id := "u2", created_at := 31 },
        { id := 9, idea_id := 3, user_id := "u3", created_at := 31 },
        { id := 10, idea_id := 3, user_id := "u4", created_at := 31 },
        { id := 11, idea_id := 3, user_id := "u5", created_at := 31 } ],
    next_idea_id := 4, next_vote_id := 12 }

/-- Expected fetch_ideas row for suggestion A of exDB3 (requester "u"). -/
def rowA : IdeaRow := { id := 1, content := "A", votes := 3, created_at := 10, i_voted := false }

/-- Expected fetch_ideas row for suggestion B of exDB3 (requester "u"). -/
def rowB : IdeaRow := { id := 2, content := "B", votes := 3, created_at := 20, i_voted := false }

/-- Expected fetch_ideas row for suggestion C of exDB3 (requester "u"). -/
def rowC : IdeaRow := { id := 3, content := "C", votes := 5, created_at := 30, i_voted := false }

/-- Expected fetch_ideas row for suggestion C of exDB3 as seen by requester
"u1", who holds a vote on it. -/
def rowC1 : IdeaRow := { id := 3, content := "C", votes := 5, created_at := 30, i_voted := true }

/-- Concrete store holding one suggestion (id 1) with three votes. -/
def exDel : DB :=
  { ideas := [ { id := 1, category := "food", content := "X", votes := 0, created_at := 0 } ],
    votes :=
      [ { id := 1, idea_id := 1, user_id := "a", created_at := 1 },
        { id := 2, idea_id := 1, user_id := "b", created_at := 2 },
        { id := 3, idea_id := 1, user_id := "c", created_at := 3 } ],
    next_idea_id := 2, next_vote_id := 4 }

/-- Store obtained from the fresh database by toggle_vote(1, "S"): no
suggestion rows, one dangling vote row. -/
def dbDangling : DB :=
  { ideas := [],
    votes := [ { id := 1, idea_id := 1, user_id := "S", created_at := 0 } ],
    next_idea_id := 1, next_vote_id := 2 }

/-- Store obtained from dbDangling by add_idea("food", "pizza") at time 5:
the fresh suggestion reuses id 1, which the dangling vote row references. -/
def dbPizza : DB :=
  { ideas := [ { id := 1, category := "food", content := "pizza", votes := 0, created_at := 5 } ],
    votes := [ { id := 1, idea_id := 1, user_id := "S", created_at := 0 } ],
    next_idea_id := 2, next_vote_id := 2 }

/-- The suggestion row inserted by add_idea(initDB, 5, "food", "pizza"). -/
def ideaW : Idea := { id := 1, category := "food", content := "pizza", votes := 0, created_at := 5 }

/-- Store obtained from the fresh database by add_idea("food", "pizza") at
time 5. -/
def dbW : DB := { ideas := [ideaW], votes := [], next_idea_id := 2, next_vote_id := 1 }

/-! Helper lemmas. -/

theorem voteFor_iff (idea_id : Nat) (user_id : String) (v : Vote) :
    voteFor idea_id user_id v = true ↔ v.idea_id = idea_id ∧ v.user_id = user_id := by
  simp [voteFor]

theorem has_voted_iff (db : DB) (idea_id : Nat) (user_id : String) :
    has_voted db idea_id user_id = true ↔
      ∃ v ∈ db.votes, v.idea_id = idea_id ∧ v.user_id = user_id := by
  simp [has_voted, List.find?_isSome, voteFor]

theorem any_voteFor_of_has_voted (db : DB) (idea_id : Nat) (user_id : String)
    (h : has_voted db idea_id user_id = true) :
    db.votes.any (voteFor idea_id user_id) = true := by
  rw [List.any_eq_true]
  obtain ⟨v, hv, h1, h2⟩ := (has_voted_iff db idea_id user_id).mp h
  exact ⟨v, hv, by simp [voteFor, h1, h2]⟩

theorem any_voteFor_eq_false (db : DB) (idea_id : Nat) (user_id : String)
    (h : db.votes.find? (voteFor idea_id user_id) = none) :
    db.votes.any (voteFor idea_id user_id) = false := by
  have hnone := List.find?_eq_none.mp h
  rw [← Bool.not_eq_true, List.any_eq_true]
  rintro ⟨v, hv, hp⟩
  exact hnone v hv hp

theorem toggle_vote_ideas (db : DB) (now idea_id : Nat) (user_id : String) :
    (toggle_vote db now idea_id user_id).1.ideas = db.ideas := by
  cases hfind : db.votes.find? (voteFor idea_id user_id) with
  | none =>
    simp only [toggle_vote, hfind, vote_insert_absorbed]
    split <;> rfl
  | some row => simp [toggle_vote, hfind]

theorem has_voted_toggle (db : DB) (now idea_id : Nat) (user_id : String)
    (hU : VotesUnique db) :
    has_voted (toggle_vote db now idea_id user_id).1 idea_id user_id =
      !has_voted db idea_id user_id := by
  cases hfind : db.votes.find? (voteFor idea_id user_id) with
  | none =>
    have hv : has_voted db idea_id user_id = false := by
      simp [has_voted, hfind]
    rw [hv, Bool.not_false]
    simp only [toggle_vote, hfind]
    rw [vote_insert_absorbed, if_neg (by simp [any_voteFor_eq_false db idea_id user_id hfind])]
    refine (has_voted_iff _ _ _).mpr ⟨_, List.mem_append_right _ (List.mem_singleton.mpr rfl), rfl, rfl⟩
  | some row =>
    have hrow_mem : row ∈ db.votes := List.mem_of_find?_eq_some hfind
    obtain ⟨hrid, hruid⟩ := (voteFor_iff _ _ _).mp (List.find?_some hfind)
    have hv : has_voted db idea_id user_id = true := by
      simp [has_voted, hfind]
    rw [hv, Bool.not_true, ← Bool.not_eq_true]
    simp only [toggle_vote, hfind]
    rw [has_voted_iff]
    rintro ⟨v, hvmem, h1, h2⟩
    obtain ⟨hvdb, hvne⟩ := List.mem_filter.mp hvmem
    have hveq : v = row := hU v hvdb row hrow_mem (h1.trans hrid.symm) (h2.trans hruid.symm)
    simp [hveq] at hvne

theorem votesUnique_toggle (db : DB) (now idea_id : Nat) (user_id : String)
    (hU : VotesUnique db) : VotesUnique (toggle_vote db now idea_id user_id).1 := by
  cases hfind : db.votes.find? (voteFor idea_id user_id) with
  | some row =>
    simp only [toggle_vote, hfind]
    intro v hv w hw h1 h2
    exact hU v (List.mem_filter.mp hv).1 w (List.mem_filter.mp hw).1 h1 h2
  | none =>
    have hnone := List.find?_eq_none.mp hfind
    simp only [toggle_vote, hfind]
    rw [vote_insert_absorbed, if_neg (by simp [any_voteFor_eq_false db idea_id user_id hfind])]
    intro v hv w hw h1 h2
    rcases List.mem_append.mp hv with hv | hv <;>
      rcases List.mem_append.mp hw with hw | hw
    · exact hU v hv w hw h1 h2
    · rw [List.mem_singleton] at hw
      subst hw
      exact absurd (by simp [voteFor, h1, h2] : voteFor idea_id user_id v = true) (hnone v hv)
    · rw [List.mem_singleton] at hv
      subst hv
      exact absurd (by simp [voteFor, ← h1, ← h2] : voteFor idea_id user_id w = true) (hnone w hw)
    · rw [List.mem_singleton] at hv hw
      rw [hv, hw]

theorem reachable_votesUnique (db : DB) (h : Reachable db) : VotesUnique db := by
  induction h with
  | init => intro v hv; cases hv
  | step hR hS ih =>
    cases hS with
    | add now category content db2 ok heq =>
      simp only [add_idea] at heq
      split_ifs at heq with h1 h2
      · cases heq
        exact ih
      · cases heq
        exact ih
    | toggle now idea_id user_id => exact votesUnique_toggle _ now idea_id user_id ih
    | del idea_id => exact ih

theorem reachable_stored_zero (db : DB) (h : Reachable db) : ∀ i ∈ db.ideas, i.votes = 0 := by
  induction h with
  | init => intro i hi; cases hi
  | step hR hS ih =>
    cases hS with
    | add now category content db2 ok heq =>
      simp only [add_idea] at heq
      split_ifs at heq with h1 h2
      · cases heq
        exact ih
      · cases heq
        intro i hi
        rcases List.mem_append.mp hi with hi | hi
        · exact ih i hi
        · rw [List.mem_singleton] at hi
          rw [hi]
    | toggle now idea_id user_id =>
      intro i hi
      rw [toggle_vote_ideas] at hi
      exact ih i hi
    | del idea_id =>
      intro i hi
      exact ih i (List.mem_filter.mp hi).1

theorem toggle_iter_parity (idea_id : Nat) (user_id : String) (ts : List Nat) :
    ∀ db : DB, VotesUnique db →
      has_voted (toggle_iter idea_id user_id db ts) idea_id user_id =
        xor (decide (ts.length % 2 = 1)) (has_voted db idea_id user_id) := by
  induction ts with
  | nil => intro db hU; simp [toggle_iter]
  | cons t ts ih =>
    intro db hU
    rw [toggle_iter, ih _ (votesUnique_toggle db t idea_id user_id hU),
      has_voted_toggle db t idea_id user_id hU]
    rcases Nat.mod_two_eq_zero_or_one ts.length with h | h <;>
      have h2 : (t :: ts).length % 2 = (ts.length + 1) % 2 := by simp
    · have h3 : (ts.length + 1) % 2 = 1 := by omega
      cases hv : has_voted db idea_id user_id <;> simp [h, h2, h3]
    · have h3 : (ts.length + 1) % 2 = 0 := by omega
      cases hv : has_voted db idea_id user_id <;> simp [h, h2, h3]

theorem rankLE_iff (a b : IdeaRow) :
    rankLE a b = true ↔
      b.votes < a.votes ∨ a.votes = b.votes ∧
        (a.created_at < b.created_at ∨ a.created_at = b.created_at ∧ a.id ≤ b.id) := by
  unfold rankLE
  split_ifs with h1 h2 <;> simp only [decide_eq_true_eq] <;> omega

theorem rankRel_total : ∀ a b : IdeaRow, rankRel a b ∨ rankRel b a := by
  intro a b
  simp only [rankRel, rankLE_iff]
  omega

theorem rankRel_trans : ∀ a b c : IdeaRow, rankRel a b → rankRel b c → rankRel a c := by
  intro a b c hab hbc
  simp only [rankRel, rankLE_iff] at *
  omega

theorem fetch_ideas_scale_stored (f : Nat → Nat) (db : DB) (category user_id : String) :
    fetch_ideas (scale_stored f db) category user_id = fetch_ideas db category user_id := by
  simp only [fetch_ideas, scale_stored]
  rw [List.filter_map, List.map_map]
  rfl

/-! Claim theorems. -/

/-- C1: deleteSuggestion(X) is claimed to remove the suggestion row and every
vote row referencing X as one atomic operation, with listRanked excluding X
afterwards and a repeated delete being an error-free no-op.  The code keeps
the claimed behaviour for the suggestion row, the listing and the repeat, but
it never deletes the vote rows: PRAGMA foreign_keys is not enabled, so the
ON DELETE CASCADE the source comment relies on does not fire.  Evaluated at
the failing input exDel (suggestion 1 with 3 votes): the suggestion row is
gone, fetch_ideas excludes it, the repeated delete is a no-op, yet all 3 vote
rows are still present. -/
theorem delete_idea_leaves_votes_behind :
    (delete_idea exDel 1).ideas = [] ∧
      (delete_idea exDel 1).votes = exDel.votes ∧
      (delete_idea exDel 1).votes.length = 3 ∧
      fetch_ideas (delete_idea exDel 1) "food" "a" = [] ∧
      delete_idea (delete_idea exDel 1) 1 = delete_idea exDel 1 := by
  decide

/-- C2: for every store with the schema-enforced vote-pair uniqueness in
which session user_id holds no vote on idea_id, after an odd number of
toggle_vote(idea_id, user_id) calls has_voted is true and after an even
number it is false. -/
theorem toggle_parity_from_unvoted (db : DB) (idea_id : Nat) (user_id : String)
    (ts : List Nat) (hU : VotesUnique db)
    (h0 : has_voted db idea_id user_id = false) :
    has_voted (toggle_iter idea_id user_id db ts) idea_id user_id =
      decide (ts.length % 2 = 1) := by
  rw [toggle_iter_parity idea_id user_id ts db hU, h0, Bool.xor_false]

/-- Witness for C2: in the fresh store, session "S" holds no vote on
suggestion 1, and after three toggles has_voted is true. -/
theorem toggle_parity_from_unvoted_witness :
    VotesUnique initDB ∧ has_voted initDB 1 "S" = false ∧
      has_voted (toggle_iter 1 "S" initDB [0, 1, 2]) 1 "S" = true := by
  have hU : VotesUnique initDB := by intro v hv; cases hv
  have h0 : has_voted initDB 1 "S" = false := by decide
  have h := toggle_parity_from_unvoted initDB 1 "S" [0, 1, 2] hU h0
  exact ⟨hU, h0, by simpa using h⟩

/-- C3: fetch_ideas output is sorted by the three-level key (live vote count
descending, creation timestamp ascending, id ascending) for every store,
category and requester, and on the spec's example store (A: 3 votes created
at 10, B: 3 votes created at 20, C: 5 votes created at 30) it returns
[C, A, B]. -/
theorem fetch_ideas_sorted_with_example :
    (∀ (db : DB) (category user_id : String),
        List.Pairwise
          (fun a b : IdeaRow =>
            b.votes < a.votes ∨ a.votes = b.votes ∧
              (a.created_at < b.created_at ∨ a.created_at = b.created_at ∧ a.id ≤ b.id))
          (fetch_ideas db category user_id)) ∧
      fetch_ideas exDB3 "food" "u" = [rowC, rowA, rowB] := by
  constructor
  · intro db category user_id
    have hs := @List.sorted_insertionSort IdeaRow rankRel _ ⟨rankRel_total⟩ ⟨rankRel_trans⟩
      ((db.ideas.filter (fun i => i.category == category)).map
        (fun i =>
          { id := i.id, content := i.content, votes := live_count db i.id,
            created_at := i.created_at,
            i_voted := (db.votes.find? (voteFor i.id user_id)).isSome }))
    exact hs.imp (fun hab => (rankLE_iff _ _).mp hab)
  · decide

/-- C4: every store reachable through the public operations satisfies the
(suggestion, session) vote uniqueness invariant, and a vote insert that
collides with the UNIQUE constraint is absorbed (the store is left unchanged
and no error reaches the caller, the absorbing insert being a total
function). -/
theorem reachable_votes_unique_and_collision_absorbed (db : DB) (h : Reachable db) :
    VotesUnique db ∧
      ∀ (now idea_id : Nat) (user_id : String),
        has_voted db idea_id user_id = true →
          vote_insert_absorbed db now idea_id user_id = db := by
  refine ⟨reachable_votesUnique db h, fun now idea_id user_id hv => ?_⟩
  rw [vote_insert_absorbed, if_pos (by simp [any_voteFor_of_has_voted db idea_id user_id hv])]

/-- Witness for C4: the store reached by one toggle from the fresh database
has unique vote pairs, and a duplicate insert of the existing (1, "S") vote
leaves it unchanged. -/
theorem reachable_votes_unique_and_collision_absorbed_witness :
    VotesUnique dbDangling ∧ vote_insert_absorbed dbDangling 9 1 "S" = dbDangling := by
  have h0 : (toggle_vote initDB 0 1 "S").1 = dbDangling := by decide
  have hreach : Reachable dbDangling :=
    h0 ▸ Reachable.step Reachable.init (Step.toggle initDB 0 1 "S")
  have h := reachable_votes_unique_and_collision_absorbed dbDangling hreach
  exact ⟨h.1, h.2 9 1 "S" (by decide)⟩

/-- C5: toggle_vote on a suggestion id absent from the store is claimed to be
a silent no-op leaving the store unchanged.  The code indeed never raises
(the function is total), but it is not a no-op: with foreign-key enforcement
off, the insert succeeds and creates a dangling vote row.  Evaluated at the
failing input (fresh store, toggle_vote(7, "S")): the store changes, gaining
a vote row for the nonexistent suggestion 7. -/
theorem toggle_missing_id_inserts_dangling_vote :
    (toggle_vote initDB 0 7 "S").1.votes =
        [{ id := 1, idea_id := 7, user_id := "S", created_at := 0 }] ∧
      (toggle_vote initDB 0 7 "S").1 ≠ initDB ∧
      has_voted (toggle_vote initDB 0 7 "S").1 7 "S" = true := by
  decide

/-- C6: addSuggestion is claimed to reject exactly blank-trimming text with
no row inserted, and otherwise to insert one fresh row that appears in
listRanked with voteCount 0.  The rejection and acceptance behaviour hold,
but the voteCount-0 part fails on a reachable store: a toggle on the
not-yet-existing id 1 leaves a dangling vote row (foreign keys off), and the
next accepted suggestion is assigned that id and surfaces in fetch_ideas
with voteCount 1. -/
theorem add_after_dangling_vote_nonzero_count :
    add_idea initDB 0 "food" "   " = some (initDB, false) ∧
      (toggle_vote initDB 0 1 "S").1 = dbDangling ∧
      add_idea dbDangling 5 "food" "pizza" = some (dbPizza, true) ∧
      (fetch_ideas dbPizza "food" "u").map (fun r => (r.id, r.votes)) = [(1, 1)] := by
  decide

/-- C7 counterexample: the claim says toggleVote returns {voted: bool}, true
when the call created a vote.  On the fresh store, toggle_vote(1, "S")
creates a vote (UNVOTED to VOTED, has_voted becomes true) yet the Python
function returns None, not a voted flag. -/
theorem toggle_vote_no_flag_counterexample :
    has_voted (toggle_vote initDB 0 1 "S").1 1 "S" = true ∧
      (toggle_vote initDB 0 1 "S").2 = none := by
  decide

/-- C7 amended: toggle_vote returns None on every path; the new state of the
(suggestion, session) pair is observable through has_voted, which the call
negates. -/
theorem toggle_vote_returns_none (db : DB) (now idea_id : Nat) (user_id : String)
    (hU : VotesUnique db) :
    (toggle_vote db now idea_id user_id).2 = none ∧
      has_voted (toggle_vote db now idea_id user_id).1 idea_id user_id =
        !has_voted db idea_id user_id := by
  refine ⟨?_, has_voted_toggle db now idea_id user_id hU⟩
  cases hfind : db.votes.find? (voteFor idea_id user_id) <;> simp [toggle_vote, hfind]

/-- Witness for the amended C7: concrete toggle on the fresh store. -/
theorem toggle_vote_returns_none_witness :
    (toggle_vote initDB 0 1 "S").2 = none ∧
      has_voted (toggle_vote initDB 0 1 "S").1 1 "S" = !has_voted initDB 1 "S" :=
  toggle_vote_returns_none initDB 0 1 "S" (by intro v hv; cases hv)

/-- C8: every row of fetch_ideas carries votes equal to the live number of
vote rows referencing that suggestion (not the stored counter) and i_voted
true exactly when a vote row of the requesting session on that suggestion
exists. -/
theorem fetch_ideas_live_fields (db : DB) (category user_id : String) (r : IdeaRow)
    (hr : r ∈ fetch_ideas db category user_id) :
    r.votes = db.votes.countP (fun v => v.idea_id == r.id) ∧
      (r.i_voted = true ↔ ∃ v ∈ db.votes, v.idea_id = r.id ∧ v.user_id = user_id) := by
  rw [fetch_ideas, List.mem_insertionSort, List.mem_map] at hr
  obtain ⟨i, hi, rfl⟩ := hr
  refine ⟨rfl, ?_⟩
  simp [List.find?_isSome, voteFor]

/-- Witness for C8: the row of suggestion C in exDB3 as requested by session
"u1", which holds one of its 5 votes. -/
theorem fetch_ideas_live_fields_witness :
    rowC1 ∈ fetch_ideas exDB3 "food" "u1" ∧
      (rowC1.votes = exDB3.votes.countP (fun v => v.idea_id == rowC1.id) ∧
        (rowC1.i_voted = true ↔ ∃ v ∈ exDB3.votes, v.idea_id = rowC1.id ∧ v.user_id = "u1")) := by
  have hmem : rowC1 ∈ fetch_ideas exDB3 "food" "u1" := by decide
  exact ⟨hmem, fetch_ideas_live_fields exDB3 "food" "u1" rowC1 hmem⟩

/-- C10: in every reachable store the legacy stored counter column
ideas.votes is 0 on every suggestion row, and fetch_ideas is invariant under
arbitrary rewrites of that column, its reported counts being derived from
the votes table alone. -/
theorem stored_votes_column_zero_and_unused (db : DB) (h : Reachable db) :
    (∀ i ∈ db.ideas, i.votes = 0) ∧
      ∀ (f : Nat → Nat) (category user_id : String),
        fetch_ideas (scale_stored f db) category user_id =
          fetch_ideas db category user_id :=
  ⟨reachable_stored_zero db h, fun f category user_id =>
    fetch_ideas_scale_stored f db category user_id⟩

/-- Witness for C10: the store reached by adding "pizza" to the fresh
database has stored counter 0 on its one row, and rewriting the column does
not change fetch_ideas. -/
theorem stored_votes_column_zero_and_unused_witness :
    ideaW.votes = 0 ∧
      fetch_ideas (scale_stored (fun n => n + 7) dbW) "food" "u" =
        fetch_ideas dbW "food" "u" := by
  have h0 : add_idea initDB 5 "food" "pizza" = some (dbW, true) := by decide
  have hreach : Reachable dbW :=
    Reachable.step Reachable.init (Step.add initDB 5 "food" "pizza" dbW true h0)
  have h := stored_votes_column_zero_and_unused dbW hreach
  exact ⟨h.1 ideaW (by decide), h.2 (fun n => n + 7) "food" "u"⟩

end MTBoard
